import Mathlib

/-!
Verification of the heart-disease dashboard script (`foranipy3.py`).

The script is a single reactive program over one tabular dataset.  We give a
shallow embedding of its data model and of every operation the specification
talks about: the cached loader, the four scalar metrics, the grouped summary
of the insights section, and the interactive age/gender filter.  Numeric
columns are embedded as `Int` (the CSV holds integers) and derived statistics
as `ℚ`; Python's float `NaN` outcomes are embedded as `none`, and an uncaught
Python exception is an `Except.error` of the corresponding error kind.
-/

/-- One patient record: the columns of `heart.csv` that the script reads
(`age`, `sex`, `cp`, `trestbps`, `chol`, `thalach`, `target`). -/
structure Row where
  age : Int
  sex : Int
  cp : Int
  trestbps : Int
  chol : Int
  thalach : Int
  target : Int
deriving DecidableEq

/-- The Patient Record Table: the dataframe `df`, one `Row` per patient. -/
abbrev Table := List Row

/-- The gender select box options `["Both", "Female", "Male"]` (line 110). -/
inductive Gender where
  | Both
  | Female
  | Male
deriving DecidableEq

/-- The error kinds of the system: a missing/malformed input file, the
uncaught `ZeroDivisionError` of the gender-ratio metric, and the pandas
length-mismatch `ValueError` raised by an index assignment whose label count
differs from the row count. -/
inductive AppError where
  | DataLoadError
  | ZeroDivisionError
  | LengthMismatch
deriving DecidableEq

/-- Pandas `Series.between(lo, hi)`: inclusive on both ends. -/
def betweenIncl (lo hi a : Int) : Bool :=
  decide (lo ≤ a) && decide (a ≤ hi)

/-- `filtered_df` (lines 112-117): if gender is "Female", rows with age
between the slider bounds and `sex == 0`; if "Male", age between and
`sex == 1`; otherwise ("Both") just age between. -/
def filtered_df (gender : Gender) (lo hi : Int) (df : Table) : Table :=
  match gender with
  | Gender.Female => df.filter fun r => betweenIncl lo hi r.age && decide (r.sex = 0)
  | Gender.Male => df.filter fun r => betweenIncl lo hi r.age && decide (r.sex = 1)
  | Gender.Both => df.filter fun r => betweenIncl lo hi r.age

/-- `len(df[df['sex'] == v])`: number of rows whose `sex` equals `v`. -/
def countSex (v : Int) (df : Table) : Nat :=
  (df.filter fun r => decide (r.sex = v)).length

/-- The gender-ratio metric (line 39):
`len(df[df['sex'] == 1]) / len(df[df['sex'] == 0])`.
Python raises an uncaught `ZeroDivisionError` when the denominator is zero;
that exceptional outcome is embedded as `none`. -/
def maleToFemale (df : Table) : Option ℚ :=
  if countSex 0 df = 0 then none
  else some ((countSex 1 df : ℚ) / (countSex 0 df : ℚ))

/-- Pandas `Series.mean()`: `NaN` (embedded as `none`) on an empty column,
otherwise the sum divided by the length. -/
def seriesMean (l : List ℚ) : Option ℚ :=
  if l.length = 0 then none else some (l.sum / (l.length : ℚ))

/-- Pandas `Series.std()` has `ddof = 1`: `NaN` (embedded as `none`) unless
at least two values are present.  The standard deviation is the square root
of this sample variance; the square root of a rational is irrational in
general and no property below inspects these values, so the variance itself
is recorded. -/
def seriesVar (l : List ℚ) : Option ℚ :=
  if l.length ≤ 1 then none
  else some ((l.map fun x => (x - l.sum / (l.length : ℚ)) ^ 2).sum / ((l.length : ℚ) - 1))

/-- `.round(2)`: rounding a value to two decimal places.  (Pandas rounds the
underlying binary float half-to-even; over `ℚ` ties round half-up.  No
property below depends on the tie behavior.) -/
def roundTo2 (q : ℚ) : ℚ :=
  ((round (q * 100) : ℤ) : ℚ) / 100

/-- Python `f-string` fixed-point formatting `:.2f` for the nonnegative
values produced here, modelled over `ℚ`: the value rounded to two decimals,
printed with exactly two fractional digits. -/
def fmtFixed2 (q : ℚ) : String :=
  let c : Int := round (q * 100)
  toString (c / 100) ++ "." ++ (if c % 100 < 10 then "0" ++ toString (c % 100) else toString (c % 100))

/-- The disease-prevalence metric (line 35): `df['target'].mean() * 100`. -/
def prevalence (df : Table) : Option ℚ :=
  (seriesMean (df.map fun r => (r.target : ℚ))).map fun m => m * 100

/-- The displayed prevalence string (line 35): the prevalence formatted to
two decimals with a percent sign appended. -/
def prevalenceDisplay (df : Table) : Option String :=
  (prevalence df).map fun p => fmtFixed2 p ++ "%"

/-- The average-age metric (line 37): `df['age'].mean()`. -/
def averageAge (df : Table) : Option ℚ :=
  seriesMean (df.map fun r => (r.age : ℚ))

/-- `df.groupby("target")` group membership: the rows whose `target` equals
`v`, in table order. -/
def groupRows (v : Int) (df : Table) : Table :=
  df.filter fun r => decide (r.target = v)

/-- Insert a key into an ascending duplicate-free key list, keeping it
ascending and duplicate-free. -/
def insertKey (v : Int) : List Int → List Int
  | [] => [v]
  | k :: ks =>
    if v < k then v :: k :: ks
    else if v = k then k :: ks
    else k :: insertKey v ks

/-- The group keys of `df.groupby("target")`: the distinct values of the
`target` column in ascending order. -/
def targetKeys : Table → List Int
  | [] => []
  | r :: rest => insertKey r.target (targetKeys rest)

/-- One row of the `.agg({...}).round(2)` summary (lines 93-98): mean,
standard deviation (recorded as the sample variance, see `seriesVar`), min
and max for age; mean and standard deviation for thalach, chol and
trestbps; all rounded to two decimals. -/
structure AggRow where
  ageMean : Option ℚ
  ageVariance : Option ℚ
  ageLeast : Option Int
  ageGreatest : Option Int
  thalachMean : Option ℚ
  thalachVariance : Option ℚ
  cholMean : Option ℚ
  cholVariance : Option ℚ
  trestbpsMean : Option ℚ
  trestbpsVariance : Option ℚ
deriving DecidableEq

/-- The aggregation of lines 93-98 applied to one disease-status group. -/
def aggRow (g : Table) : AggRow :=
  { ageMean := (seriesMean (g.map fun r => (r.age : ℚ))).map roundTo2
    ageVariance := (seriesVar (g.map fun r => (r.age : ℚ))).map roundTo2
    ageLeast := (g.map Row.age).min?
    ageGreatest := (g.map Row.age).max?
    thalachMean := (seriesMean (g.map fun r => (r.thalach : ℚ))).map roundTo2
    thalachVariance := (seriesVar (g.map fun r => (r.thalach : ℚ))).map roundTo2
    cholMean := (seriesMean (g.map fun r => (r.chol : ℚ))).map roundTo2
    cholVariance := (seriesVar (g.map fun r => (r.chol : ℚ))).map roundTo2
    trestbpsMean := (seriesMean (g.map fun r => (r.trestbps : ℚ))).map roundTo2
    trestbpsVariance := (seriesVar (g.map fun r => (r.trestbps : ℚ))).map roundTo2 }

/-- The grouped summary `df.groupby("target").agg({...}).round(2)`
(lines 93-98): one aggregate row per distinct `target` value, keyed by that
value in ascending order. -/
def summaryRows (df : Table) : List (Int × AggRow) :=
  (targetKeys df).map fun v => (v, aggRow (groupRows v df))

/-- The human-readable row labels of line 102. -/
def summaryIndexLabels : List String :=
  ["No Heart Disease", "Heart Disease"]

/-- `summary.index = labels` (line 102): pandas raises a length-mismatch
`ValueError` unless the label count equals the row count; otherwise the rows
are relabelled positionally. -/
def setIndex (labels : List String) (rows : List (Int × AggRow)) :
    Except AppError (List (String × AggRow)) :=
  if labels.length = rows.length then Except.ok (labels.zip (rows.map Prod.snd))
  else Except.error AppError.LengthMismatch

/-- The insights-section summary (lines 93-103): the grouped aggregates with
the two fixed labels assigned as index. -/
def insightsSummary (df : Table) : Except AppError (List (String × AggRow)) :=
  setIndex summaryIndexLabels (summaryRows df)

/-- The input file as the loader sees it: absent, or a sequence of records
already split into integer cells. -/
inductive CsvFile where
  | missing
  | content (rows : List (List Int))
deriving DecidableEq

/-- Parsing one CSV record into a patient row: exactly the seven columns the
script reads, in the file's column order. -/
def parseRow (cells : List Int) : Option Row :=
  match cells with
  | [a, s, c, t, ch, th, tg] => some ⟨a, s, c, t, ch, th, tg⟩
  | _ => none

/-- Parsing every record; any malformed record poisons the whole parse. -/
def parseRows : List (List Int) → Option (List Row)
  | [] => some []
  | cs :: rest =>
    match parseRow cs, parseRows rest with
    | some r, some rs => some (r :: rs)
    | _, _ => none

/-- Modelled from the spec: `load_data` (lines 15-18) delegates the actual
file read to the external `pd.read_csv("heart.csv")`, whose behavior is not
part of this repository; per spec §4.1 a missing or malformed file makes the
load fail with a `DataLoadError` and there is no recovery path. -/
def load_data : CsvFile → Except AppError Table
  | CsvFile.missing => Except.error AppError.DataLoadError
  | CsvFile.content rows =>
    match parseRows rows with
    | none => Except.error AppError.DataLoadError
    | some t => Except.ok t

/-- A missing or malformed input: the file is absent, or some record of it
fails to parse. -/
def Malformed : CsvFile → Prop
  | CsvFile.missing => False
  | CsvFile.content rows => ∃ cs ∈ rows, parseRow cs = none

/-- Modelled from the spec: the `@st.cache_data` memoization (line 15,
spec §2 and §4.1) — the cache holds the table of the first successful load,
and while it is populated every further invocation returns the cached table
without touching the file. -/
def loadCached (cache : Option Table) (f : CsvFile) :
    Except AppError (Table × Option Table) :=
  match cache with
  | some t => Except.ok (t, some t)
  | none =>
    match load_data f with
    | Except.error e => Except.error e
    | Except.ok t => Except.ok (t, some t)

/-- The UI-selected parameters of one render cycle: the sidebar checkbox,
the age-range slider and the gender select box. -/
structure Params where
  show_raw_data : Bool
  ageLo : Int
  ageHi : Int
  gender : Gender

/-- Selecting one feature column of the two disease-status groups, as fed to
the paired violin traces (lines 78-84). -/
def featureSplit (f : Row → Int) (df : Table) : List Int × List Int :=
  ((groupRows 0 df).map f, (groupRows 1 df).map f)

/-- Everything one render cycle of the script derives from the table: the
optional raw-data view, the four metrics, the chart-ready data of the three
sections, and the filter result.  The correlation heatmap's coefficients
involve real square roots and are presentation detail; the data it consumes
is the table itself, already recorded here. -/
structure AppOutput where
  rawData : Option Table
  totalPatients : Nat
  prevalenceText : Option String
  avgAge : Option ℚ
  maleFemale : ℚ
  femaleCount : Nat
  maleCount : Nat
  ageByStatus : List (Int × Int)
  cpByStatus : List (Int × Int)
  scatterPoints : List (Int × Int × Int × Int)
  violinData : List (List Int × List Int)
  summaryTable : List (String × AggRow)
  filteredCount : Nat
  filteredTable : Table

/-- One top-to-bottom render cycle of the script over an already loaded
table (lines 20-120).  The gender-ratio metric (line 39) runs before the
tabs, so its `ZeroDivisionError` aborts the cycle first; the index
assignment of line 102 is the only other failing operation.  The table the
cycle finishes with is returned alongside the outputs: the source applies
only non-mutating pandas operations (selection, `map`, `groupby`, `corr`),
each of which returns a new object, and never rebinds `df`. -/
def runApp (df : Table) (p : Params) : Except AppError (AppOutput × Table) :=
  match maleToFemale df with
  | none => Except.error AppError.ZeroDivisionError
  | some q =>
    match insightsSummary df with
    | Except.error e => Except.error e
    | Except.ok summ =>
      Except.ok
        ({ rawData := if p.show_raw_data then some df else none
           totalPatients := df.length
           prevalenceText := prevalenceDisplay df
           avgAge := averageAge df
           maleFemale := q
           femaleCount := countSex 0 df
           maleCount := countSex 1 df
           ageByStatus := df.map fun r => (r.age, r.target)
           cpByStatus := df.map fun r => (r.cp, r.target)
           scatterPoints := df.map fun r => (r.age, r.thalach, r.chol, r.target)
           violinData := [featureSplit Row.age df, featureSplit Row.thalach df,
                          featureSplit Row.chol df, featureSplit Row.trestbps df]
           summaryTable := summ
           filteredCount := (filtered_df p.gender p.ageLo p.ageHi df).length
           filteredTable := filtered_df p.gender p.ageLo p.ageHi df }, df)

/-- The whole script: load, then render; a load failure aborts before any
rendering. -/
def renderApp (f : CsvFile) (p : Params) : Except AppError (AppOutput × Table) :=
  match load_data f with
  | Except.error e => Except.error e
  | Except.ok df => runApp df p

/-- The table a render cycle leaves behind (`dflt` when the cycle aborted
before finishing). -/
def resultTable (e : Except AppError (AppOutput × Table)) (dflt : Table) : Table :=
  match e with
  | Except.ok (_, t) => t
  | Except.error _ => dflt

/-- `int(df['age'].min())` (line 109): the least value of the age column. -/
def ageColMin (df : Table) : WithTop Int :=
  (df.map Row.age).minimum

/-- `int(df['age'].max())` (line 109): the greatest value of the age column. -/
def ageColMax (df : Table) : WithBot Int :=
  (df.map Row.age).maximum

/-- A three-row table with ages 29, 45 and 71 (the worked example of the
spec's testable properties). -/
def exampleTable : Table :=
  [⟨29, 1, 0, 120, 200, 160, 0⟩, ⟨45, 0, 1, 130, 204, 172, 1⟩, ⟨71, 1, 2, 140, 250, 150, 0⟩]

/-- The row of `exampleTable` with age 45. -/
def exRow45 : Row := ⟨45, 0, 1, 130, 204, 172, 1⟩

/-- A two-row table used to instantiate the boundary-identity theorem. -/
def twFullRange : Table :=
  [⟨40, 1, 0, 120, 200, 160, 0⟩, ⟨52, 0, 1, 130, 210, 170, 1⟩]

/-- A three-row binary-sex table used to instantiate the partition theorem. -/
def twPartition : Table :=
  [⟨35, 0, 0, 118, 190, 165, 0⟩, ⟨48, 1, 2, 132, 230, 158, 1⟩, ⟨66, 1, 1, 141, 260, 140, 1⟩]

/-- A table with no female rows (every `sex` is 1). -/
def tMaleOnly : Table :=
  [⟨54, 1, 0, 130, 230, 150, 1⟩]

/-- A two-row binary table used to instantiate the prevalence theorem. -/
def twPrevalence : Table :=
  [⟨50, 1, 0, 120, 200, 150, 1⟩, ⟨60, 0, 0, 130, 220, 140, 0⟩]

/-- A two-row table with both disease-status groups present. -/
def twSummary : Table :=
  [⟨63, 1, 3, 145, 233, 150, 1⟩, ⟨57, 0, 0, 120, 236, 174, 0⟩]

/-- A table whose `target` column takes the two distinct values 0 and 2. -/
def tTwoOddGroups : Table :=
  [⟨50, 1, 0, 120, 200, 150, 0⟩, ⟨61, 0, 1, 130, 220, 140, 2⟩]

/-- A table whose `target` column takes a single value. -/
def tOneGroup : Table :=
  [⟨45, 1, 0, 120, 200, 150, 0⟩]

/-- A well-formed one-record input file. -/
def csvGood : CsvFile :=
  CsvFile.content [[44, 1, 0, 118, 242, 149, 1]]

/-- The table `csvGood` loads to. -/
def tGood : Table :=
  [⟨44, 1, 0, 118, 242, 149, 1⟩]

/-- A two-row table on which a full render cycle succeeds. -/
def twApp : Table :=
  [⟨41, 0, 1, 130, 204, 172, 0⟩, ⟨58, 1, 0, 120, 284, 160, 1⟩]

/-- Default UI parameters: checkbox off, range (30, 70), gender "Both". -/
def pDefault : Params :=
  { show_raw_data := false, ageLo := 30, ageHi := 70, gender := Gender.Both }

/-- C1: for every table and every filter parameter choice, `filtered_df`
returns exactly the rows whose age lies in the inclusive range and, when
gender is Female (resp. Male), whose sex equals 0 (resp. 1); and on the
table with ages [29, 45, 71], gender Both with range (30, 70) yields
exactly one row, the one with age 45. -/
theorem filtered_df_exact :
    (∀ (df : Table) (g : Gender) (lo hi : Int) (r : Row),
      r ∈ filtered_df g lo hi df ↔
        r ∈ df ∧ lo ≤ r.age ∧ r.age ≤ hi ∧
          (g = Gender.Female → r.sex = 0) ∧ (g = Gender.Male → r.sex = 1)) ∧
    (filtered_df Gender.Both 30 70 exampleTable).length = 1 ∧
    (∀ r ∈ filtered_df Gender.Both 30 70 exampleTable, r.age = 45) := by
  refine ⟨?_, by decide, by decide⟩
  intro df g lo hi r
  cases g <;>
    simp [filtered_df, List.mem_filter, betweenIncl, and_assoc]

/-- Concrete instance of `filtered_df_exact`: membership of the age-45 row in
the example filter, obtained by applying the theorem at that input. -/
theorem filtered_df_exact_witness :
    exRow45 ∈ filtered_df Gender.Both 30 70 exampleTable ↔
      exRow45 ∈ exampleTable ∧ 30 ≤ exRow45.age ∧ exRow45.age ≤ 70 ∧
        (Gender.Both = Gender.Female → exRow45.sex = 0) ∧
        (Gender.Both = Gender.Male → exRow45.sex = 1) :=
  filtered_df_exact.1 exampleTable Gender.Both 30 70 exRow45

/-- C5: filtering with the age slider set to the data's own min/max and
gender "Both" returns the entire table. -/
theorem filtered_df_full_range_id :
    ∀ (df : Table) (lo hi : Int),
      ageColMin df = (lo : WithTop Int) →
      ageColMax df = (hi : WithBot Int) →
      filtered_df Gender.Both lo hi df = df := by
  intro df lo hi hmin hmax
  have hlo := (List.minimum_eq_coe_iff.mp hmin).2
  have hhi := (List.maximum_eq_coe_iff.mp hmax).2
  unfold filtered_df
  rw [List.filter_eq_self]
  intro r hr
  have h1 := hlo r.age (List.mem_map_of_mem Row.age hr)
  have h2 := hhi r.age (List.mem_map_of_mem Row.age hr)
  simp [betweenIncl, h1, h2]

/-- Concrete instance of `filtered_df_full_range_id` on a two-row table whose
ages are 40 and 52. -/
theorem filtered_df_full_range_id_witness :
    filtered_df Gender.Both 40 52 twFullRange = twFullRange :=
  filtered_df_full_range_id twFullRange 40 52 (by decide) (by decide)

/-- Splitting any row filter by a binary `sex` column preserves total length:
helper for the gender partition property. -/
theorem length_filter_sex_split (b : Row → Bool) :
    ∀ l : List Row, (∀ r ∈ l, r.sex = 0 ∨ r.sex = 1) →
      (l.filter fun r => b r && decide (r.sex = 0)).length
        + (l.filter fun r => b r && decide (r.sex = 1)).length
        = (l.filter b).length := by
  intro l
  induction l with
  | nil => intro _; simp
  | cons a t ih =>
    intro h
    have ha := h a (List.mem_cons_self a t)
    have ht : ∀ r ∈ t, r.sex = 0 ∨ r.sex = 1 := fun r hr => h r (List.mem_cons_of_mem a hr)
    have iht := ih ht
    by_cases hb : b a = true
    · rcases ha with h0 | h1
      · simp only [List.filter_cons, hb, h0, Bool.true_and]
        norm_num
        omega
      · simp only [List.filter_cons, hb, h1, Bool.true_and]
        norm_num
        omega
    · simp only [List.filter_cons, hb, Bool.false_and, if_neg]
      simpa using iht

/-- C10: on a table whose `sex` column is binary, the Female-filtered and
Male-filtered results refine the Both-filtered result (each is the
corresponding sub-filter of it), every Both-filtered row lies in exactly one
of the two, and their row counts sum to the Both-filtered row count. -/
theorem filtered_df_gender_partition :
    ∀ (df : Table) (lo hi : Int),
      (∀ r ∈ df, r.sex = 0 ∨ r.sex = 1) →
      filtered_df Gender.Female lo hi df
          = (filtered_df Gender.Both lo hi df).filter (fun r => decide (r.sex = 0)) ∧
      filtered_df Gender.Male lo hi df
          = (filtered_df Gender.Both lo hi df).filter (fun r => decide (r.sex = 1)) ∧
      (∀ r ∈ filtered_df Gender.Both lo hi df,
        (r ∈ filtered_df Gender.Female lo hi df ∧ r ∉ filtered_df Gender.Male lo hi df)
          ∨ (r ∉ filtered_df Gender.Female lo hi df ∧ r ∈ filtered_df Gender.Male lo hi df)) ∧
      (filtered_df Gender.Female lo hi df).length
          + (filtered_df Gender.Male lo hi df).length
        = (filtered_df Gender.Both lo hi df).length := by
  intro df lo hi h
  have hF : filtered_df Gender.Female lo hi df
      = (filtered_df Gender.Both lo hi df).filter (fun r => decide (r.sex = 0)) := by
    simp [filtered_df, List.filter_filter, Bool.and_comm]
  have hM : filtered_df Gender.Male lo hi df
      = (filtered_df Gender.Both lo hi df).filter (fun r => decide (r.sex = 1)) := by
    simp [filtered_df, List.filter_filter, Bool.and_comm]
  refine ⟨hF, hM, ?_, ?_⟩
  · intro r hr
    have hrB : r ∈ List.filter (fun r => betweenIncl lo hi r.age) df := by
      simpa [filtered_df] using hr
    have hrdf : r ∈ df := (List.mem_filter.mp hrB).1
    rcases h r hrdf with h0 | h1
    · left
      constructor
      · rw [hF, List.mem_filter]
        exact ⟨hr, by simp [h0]⟩
      · rw [hM, List.mem_filter]
        simp [h0]
    · right
      constructor
      · rw [hF, List.mem_filter]
        simp [h1]
      · rw [hM, List.mem_filter]
        exact ⟨hr, by simp [h1]⟩
  · simpa [filtered_df] using
      length_filter_sex_split (fun r => betweenIncl lo hi r.age) df h

/-- Concrete instance of `filtered_df_gender_partition`: on a binary-sex
table, the Female and Male filtered counts sum to the Both count. -/
theorem filtered_df_gender_partition_witness :
    (filtered_df Gender.Female 30 70 twPartition).length
        + (filtered_df Gender.Male 30 70 twPartition).length
      = (filtered_df Gender.Both 30 70 twPartition).length :=
  (filtered_df_gender_partition twPartition 30 70 (by decide)).2.2.2

/-- C2: the script computes the gender-ratio metric with an unguarded
division; on a table with zero female rows it raises the uncaught
`ZeroDivisionError` (embedded as `none`, aborting the render cycle) instead
of displaying a sentinel. -/
theorem maleToFemale_zero_female_crash :
    maleToFemale tMaleOnly = none ∧
      runApp tMaleOnly pDefault = Except.error AppError.ZeroDivisionError := by
  constructor
  · rfl
  · rfl

/-- A single malformed record poisons the whole parse. -/
theorem parseRows_eq_none :
    ∀ (rows : List (List Int)) (cs : List Int), cs ∈ rows → parseRow cs = none →
      parseRows rows = none := by
  intro rows
  induction rows with
  | nil => intro cs h _; exact absurd h (List.not_mem_nil cs)
  | cons a t ih =>
    intro cs h hn
    rcases List.mem_cons.mp h with rfl | h'
    · unfold parseRows
      rw [hn]
    · have ht := ih cs h' hn
      unfold parseRows
      rw [ht]
      cases parseRow a <;> rfl

/-- C3: a missing or malformed input file makes the whole run fail with
`DataLoadError` — the load error is the result of the run, so nothing is
rendered and there is no recovery path. -/
theorem load_failure_fatal :
    ∀ (f : CsvFile) (p : Params),
      f = CsvFile.missing ∨ Malformed f →
      renderApp f p = Except.error AppError.DataLoadError := by
  intro f p h
  rcases h with rfl | hm
  · rfl
  · cases f with
    | missing => exact (hm : False).elim
    | content rows =>
      obtain ⟨cs, hcs, hnone⟩ := hm
      have hp : parseRows rows = none := parseRows_eq_none rows cs hcs hnone
      simp [renderApp, load_data, hp]

/-- Concrete instance of `load_failure_fatal`: the run on a missing file. -/
theorem load_failure_fatal_witness :
    renderApp CsvFile.missing pDefault = Except.error AppError.DataLoadError :=
  load_failure_fatal CsvFile.missing pDefault (Or.inl rfl)

/-- A list of values lying in the unit interval sums to something between 0
and its length. -/
theorem sum_bounds_of_unit :
    ∀ l : List ℚ, (∀ x ∈ l, 0 ≤ x ∧ x ≤ 1) → 0 ≤ l.sum ∧ l.sum ≤ (l.length : ℚ) := by
  intro l
  induction l with
  | nil => intro _; simp
  | cons a t ih =>
    intro h
    have ha := h a (List.mem_cons_self a t)
    have iht := ih fun x hx => h x (List.mem_cons_of_mem a hx)
    simp only [List.sum_cons, List.length_cons]
    push_cast
    constructor <;> linarith [ha.1, ha.2, iht.1, iht.2]

/-- C4: on a non-empty table with a binary `target` column, the prevalence
metric is defined, equals the mean of `target` times 100, is displayed as
that value formatted to two decimals with a percent sign, and lies in
[0, 100]. -/
theorem prevalence_mean_bounds :
    ∀ df : Table, df ≠ [] → (∀ r ∈ df, r.target = 0 ∨ r.target = 1) →
      ∃ p : ℚ, prevalence df = some p ∧
        p = (df.map fun r => (r.target : ℚ)).sum / (df.length : ℚ) * 100 ∧
        prevalenceDisplay df = some (fmtFixed2 p ++ "%") ∧
        0 ≤ p ∧ p ≤ 100 := by
  intro df hne hb
  have hlen : df.length ≠ 0 := fun h => hne (List.length_eq_zero.mp h)
  have hlpos : (0 : ℚ) < (df.length : ℚ) := by
    have : 0 < df.length := Nat.pos_of_ne_zero hlen
    exact_mod_cast this
  have hmean : seriesMean (df.map fun r => (r.target : ℚ))
      = some ((df.map fun r => (r.target : ℚ)).sum / (df.length : ℚ)) := by
    unfold seriesMean
    simp [hlen]
  have hprev : prevalence df
      = some ((df.map fun r => (r.target : ℚ)).sum / (df.length : ℚ) * 100) := by
    unfold prevalence
    rw [hmean]
    rfl
  have hunit : ∀ x ∈ df.map (fun r => (r.target : ℚ)), 0 ≤ x ∧ x ≤ 1 := by
    intro x hx
    obtain ⟨r, hr, rfl⟩ := List.mem_map.mp hx
    rcases hb r hr with h | h <;> rw [h] <;> norm_num
  obtain ⟨hs0, hs1⟩ := sum_bounds_of_unit _ hunit
  rw [List.length_map] at hs1
  have hq0 : 0 ≤ (df.map fun r => (r.target : ℚ)).sum / (df.length : ℚ) :=
    div_nonneg hs0 (le_of_lt hlpos)
  have hq1 : (df.map fun r => (r.target : ℚ)).sum / (df.length : ℚ) ≤ 1 :=
    (div_le_one hlpos).mpr hs1
  refine ⟨_, hprev, rfl, ?_, ?_, ?_⟩
  · unfold prevalenceDisplay
    rw [hprev]
    rfl
  · have := mul_nonneg hq0 (by norm_num : (0 : ℚ) ≤ 100)
    linarith
  · linarith

/-- Concrete instance of `prevalence_mean_bounds` on a two-row table with one
diseased patient. -/
theorem prevalence_mean_bounds_witness :
    ∃ p : ℚ, prevalence twPrevalence = some p ∧
      p = (twPrevalence.map fun r => (r.target : ℚ)).sum / (twPrevalence.length : ℚ) * 100 ∧
      prevalenceDisplay twPrevalence = some (fmtFixed2 p ++ "%") ∧
      0 ≤ p ∧ p ≤ 100 :=
  prevalence_mean_bounds twPrevalence (by decide) (by decide)

/-- Membership in an inserted key list. -/
theorem mem_insertKey :
    ∀ (v a : Int) (ks : List Int), a ∈ insertKey v ks ↔ a = v ∨ a ∈ ks := by
  intro v a ks
  induction ks with
  | nil => simp [insertKey]
  | cons k t ih =>
    unfold insertKey
    by_cases h1 : v < k
    · simp [h1, List.mem_cons]
    · by_cases h2 : v = k
      · subst h2
        simp [h1, List.mem_cons]
      · simp [h1, h2, List.mem_cons, ih]
        tauto

/-- Inserting into an ascending key list keeps it ascending. -/
theorem insertKey_sorted :
    ∀ (v : Int) (ks : List Int),
      List.Sorted (· < ·) ks → List.Sorted (· < ·) (insertKey v ks) := by
  intro v ks
  induction ks with
  | nil => intro _; simp [insertKey]
  | cons k t ih =>
    intro hs
    rw [List.sorted_cons] at hs
    obtain ⟨hk, hts⟩ := hs
    unfold insertKey
    by_cases h1 : v < k
    · rw [if_pos h1, List.sorted_cons]
      constructor
      · intro b hb
        rcases List.mem_cons.mp hb with rfl | hb'
        · exact h1
        · exact lt_trans h1 (hk b hb')
      · rw [List.sorted_cons]
        exact ⟨hk, hts⟩
    · by_cases h2 : v = k
      · rw [if_neg h1, if_pos h2, List.sorted_cons]
        exact ⟨hk, hts⟩
      · rw [if_neg h1, if_neg h2, List.sorted_cons]
        refine ⟨?_, ih hts⟩
        intro b hb
        rcases (mem_insertKey v b t).mp hb with rfl | hb'
        · exact lt_of_le_of_ne (not_lt.mp h1) (Ne.symm h2)
        · exact hk b hb'

/-- The group keys are exactly the values occurring in the target column. -/
theorem mem_targetKeys :
    ∀ (df : Table) (a : Int), a ∈ targetKeys df ↔ ∃ r ∈ df, r.target = a := by
  intro df a
  induction df with
  | nil => simp [targetKeys]
  | cons r t ih =>
    show a ∈ insertKey r.target (targetKeys t) ↔ _
    rw [mem_insertKey, ih]
    constructor
    · rintro (rfl | ⟨s, hs, rfl⟩)
      · exact ⟨r, List.mem_cons_self r t, rfl⟩
      · exact ⟨s, List.mem_cons_of_mem r hs, rfl⟩
    · rintro ⟨s, hs, rfl⟩
      rcases List.mem_cons.mp hs with rfl | hs'
      · left; rfl
      · right; exact ⟨s, hs', rfl⟩

/-- The group keys are ascending (hence duplicate-free). -/
theorem targetKeys_sorted :
    ∀ df : Table, List.Sorted (· < ·) (targetKeys df) := by
  intro df
  induction df with
  | nil => simp [targetKeys]
  | cons r t ih => exact insertKey_sorted r.target (targetKeys t) ih

/-- Splitting a binary `target` column into its two groups preserves total
length. -/
theorem length_filter_target_split :
    ∀ l : List Row, (∀ r ∈ l, r.target = 0 ∨ r.target = 1) →
      (l.filter fun r => decide (r.target = 0)).length
        + (l.filter fun r => decide (r.target = 1)).length = l.length := by
  intro l
  induction l with
  | nil => intro _; simp
  | cons a t ih =>
    intro h
    have ha := h a (List.mem_cons_self a t)
    have iht := ih fun r hr => h r (List.mem_cons_of_mem a hr)
    rcases ha with h0 | h1
    · simp only [List.filter_cons, h0]
      norm_num
      omega
    · simp only [List.filter_cons, h1]
      norm_num
      omega

/-- C6: on a table whose rows fall into exactly the two disease-status
groups (`target` 0 and 1, both present), the grouped summary has exactly two
rows, and the two groups' row counts sum to the table's row count. -/
theorem summary_two_groups :
    ∀ df : Table,
      (∀ r ∈ df, r.target = 0 ∨ r.target = 1) →
      (∃ r ∈ df, r.target = 0) →
      (∃ r ∈ df, r.target = 1) →
      (summaryRows df).length = 2 ∧
        (groupRows 0 df).length + (groupRows 1 df).length = df.length := by
  intro df hb h0 h1
  constructor
  · have hmem : ∀ a : Int, a ∈ targetKeys df ↔ (a = 0 ∨ a = 1) := by
      intro a
      rw [mem_targetKeys]
      constructor
      · rintro ⟨r, hr, rfl⟩
        exact hb r hr
      · rintro (rfl | rfl)
        · exact h0
        · exact h1
    have hnd : (targetKeys df).Nodup := (targetKeys_sorted df).nodup
    have hcard : (targetKeys df).toFinset.card = (targetKeys df).length :=
      List.toFinset_card_of_nodup hnd
    have hset : (targetKeys df).toFinset = ({0, 1} : Finset Int) := by
      ext a
      simp only [List.mem_toFinset, hmem a, Finset.mem_insert, Finset.mem_singleton]
    have hlen : (summaryRows df).length = (targetKeys df).length := by
      simp [summaryRows]
    rw [hlen, ← hcard, hset]
    decide
  · exact length_filter_target_split df hb

/-- Concrete instance of `summary_two_groups` on a two-row table with one
row in each disease-status group. -/
theorem summary_two_groups_witness :
    (summaryRows twSummary).length = 2 ∧
      (groupRows 0 twSummary).length + (groupRows 1 twSummary).length
        = twSummary.length :=
  summary_two_groups twSummary (by decide) (by decide) (by decide)

/-- C7: the loader is deterministic (two loads of the same file give the
same table, hence identical row count and column set), and the memoized
loader answers from a populated cache without re-reading the file and
populates the cache on a first successful load. -/
theorem load_deterministic_and_cached :
    (∀ (f : CsvFile) (t1 t2 : Table),
        load_data f = Except.ok t1 → load_data f = Except.ok t2 →
          t1 = t2 ∧ t1.length = t2.length) ∧
    (∀ (t : Table) (f : CsvFile), loadCached (some t) f = Except.ok (t, some t)) ∧
    (∀ (f : CsvFile) (t : Table), load_data f = Except.ok t →
        loadCached none f = Except.ok (t, some t)) := by
  refine ⟨?_, ?_, ?_⟩
  · intro f t1 t2 h1 h2
    rw [h1] at h2
    injection h2 with h
    exact ⟨h, by rw [h]⟩
  · intro t f
    rfl
  · intro f t h
    unfold loadCached
    rw [h]

/-- Concrete instance of `load_deterministic_and_cached` on a one-record
file: determinism, a cache hit, and a first load populating the cache. -/
theorem load_deterministic_and_cached_witness :
    (tGood = tGood ∧ tGood.length = tGood.length) ∧
      loadCached (some tGood) csvGood = Except.ok (tGood, some tGood) ∧
      loadCached none csvGood = Except.ok (tGood, some tGood) :=
  ⟨load_deterministic_and_cached.1 csvGood tGood tGood (by rfl) (by rfl),
   load_deterministic_and_cached.2.1 tGood csvGood,
   load_deterministic_and_cached.2.2 csvGood tGood (by rfl)⟩

/-- C8: a full render cycle leaves the loaded table unchanged — whatever the
parameters, the table the cycle finishes with is the table it started from
(and when the cycle aborts, no operation has touched the table either). -/
theorem runApp_preserves_table :
    ∀ (df : Table) (p : Params), resultTable (runApp df p) df = df := by
  intro df p
  cases hm : maleToFemale df with
  | none => simp [runApp, resultTable, hm]
  | some q =>
    cases hs : insightsSummary df with
    | error e => simp [runApp, resultTable, hm, hs]
    | ok s => simp [runApp, resultTable, hm, hs]

/-- C9 counterexample: on a table whose target column takes the two distinct
values 0 and 2, the labelled summary succeeds even though no row has
`target = 1`, refuting the claim that success requires both 0 and 1 to be
present. -/
theorem insightsSummary_succeeds_without_one :
    (∃ s, insightsSummary tTwoOddGroups = Except.ok s) ∧
      ¬ (∃ r ∈ tTwoOddGroups, r.target = 1) := by
  constructor
  · exact ⟨summaryIndexLabels.zip ((summaryRows tTwoOddGroups).map Prod.snd), rfl⟩
  · decide

/-- C9 (amended): assigning the two fixed row labels succeeds exactly when
the target column takes exactly two distinct values (whatever they are), and
with fewer or more distinct values it fails with the length-mismatch
error. -/
theorem insightsSummary_ok_iff_two_keys :
    ∀ df : Table,
      ((∃ s, insightsSummary df = Except.ok s) ↔ (targetKeys df).length = 2) ∧
      ((targetKeys df).length ≠ 2 →
        insightsSummary df = Except.error AppError.LengthMismatch) := by
  intro df
  have hr : (summaryRows df).length = (targetKeys df).length := by
    simp [summaryRows]
  have hcond : summaryIndexLabels.length = (summaryRows df).length
      ↔ (targetKeys df).length = 2 := by
    rw [hr]
    simp [summaryIndexLabels, eq_comm]
  constructor
  · constructor
    · rintro ⟨s, hs⟩
      by_cases h : summaryIndexLabels.length = (summaryRows df).length
      · exact hcond.mp h
      · unfold insightsSummary setIndex at hs
        rw [if_neg h] at hs
        exact absurd hs (by simp)
    · intro h
      refine ⟨summaryIndexLabels.zip ((summaryRows df).map Prod.snd), ?_⟩
      unfold insightsSummary setIndex
      rw [if_pos (hcond.mpr h)]
  · intro h
    have hc : ¬ summaryIndexLabels.length = (summaryRows df).length :=
      fun hh => h (hcond.mp hh)
    unfold insightsSummary setIndex
    rw [if_neg hc]

/-- Concrete instance of `insightsSummary_ok_iff_two_keys`: on a one-group
table the label assignment fails with the length-mismatch error. -/
theorem insightsSummary_ok_iff_two_keys_witness :
    insightsSummary tOneGroup = Except.error AppError.LengthMismatch :=
  (insightsSummary_ok_iff_two_keys tOneGroup).2 (by decide)

/-- Concrete instance of `runApp_preserves_table`: a successful render cycle
on a two-row table returns the same table. -/
theorem runApp_preserves_table_witness :
    resultTable (runApp twApp pDefault) twApp = twApp :=
  runApp_preserves_table twApp pDefault
